import Mathlib

/-!
Shallow embedding of the realtime messaging core of the `messaging-app`
repository (server WebSocket handler `apps/server/src/ws/handler.ts`,
HTTP message routes, and the PostgreSQL schema).

Timestamps are modelled as natural numbers (milliseconds); SQL `NULL`
becomes `Option`; every SQL table becomes a list of rows; every handler
case becomes a pure function from a database state (plus the current
time and the in-memory online-user registry) to a new state and the
ordered list of observable actions the handler performs (writes to the
originating socket, publishes on the Redis fan-out bus).
-/

namespace Messaging

abbrev UserId := Nat
abbrev ConvId := Nat
abbrev MsgId := Nat

/-- `conversations.type`: the schema CHECK allows `dm` and `group`; the
handler additionally branches on `channel` (shared types include it). -/
inductive ConvType
  | dm
  | group
  | channel
deriving DecidableEq, Repr

/-- `conversation_members.role`: CHECK (role IN ('admin', 'member')). -/
inductive Role
  | admin
  | member
deriving DecidableEq, Repr

/-- `messages.type`: CHECK (type IN ('text','image','video','voice','system')). -/
inductive MsgType
  | text
  | image
  | video
  | voice
  | system
deriving DecidableEq, Repr

/-- A row of the `messages` table (schema file, CREATE TABLE messages). -/
structure Message where
  id : MsgId
  conversation_id : ConvId
  sender_id : UserId
  content : Option String
  type : MsgType
  reply_to_id : Option MsgId
  edited_at : Option Nat
  deleted_at : Option Nat
  delivered_at : Option Nat
  read_at : Option Nat
  created_at : Nat
deriving DecidableEq, Repr

/-- A row of the `conversations` table (only the columns the handlers read). -/
structure Conversation where
  id : ConvId
  type : ConvType
deriving DecidableEq, Repr

/-- A row of the `conversation_members` table (columns the handlers read). -/
structure Member where
  conversation_id : ConvId
  user_id : UserId
  role : Role
  last_read_msg_id : Option MsgId
deriving DecidableEq, Repr

/-- A row of the `reactions` table; UNIQUE(message_id, user_id). -/
structure Reaction where
  message_id : MsgId
  user_id : UserId
  emoji : String
deriving DecidableEq, Repr

/-- A row of the `users` table (columns the connect flow touches). -/
structure UserRow where
  id : UserId
  last_seen_at : Option Nat
deriving DecidableEq, Repr

/-- The durable store: one list per table. -/
structure DbState where
  users : List UserRow
  conversations : List Conversation
  members : List Member
  messages : List Message
  reactions : List Reaction
deriving DecidableEq, Repr

/-- The schema's CHECK constraints on a `messages` row. The only CHECK on
the table is the enumeration constraint on `type`; the NOT NULL columns
are non-optional fields of `Message`. There is no CHECK relating
`read_at`, `delivered_at` and `created_at`. -/
def messagesRowCheck (m : Message) : Bool :=
  m.type == MsgType.text || m.type == MsgType.image || m.type == MsgType.video ||
    m.type == MsgType.voice || m.type == MsgType.system

/-- `message_ack` status field. -/
inductive AckStatus
  | ok
  | error
deriving DecidableEq, Repr

/-- Server events, restricted to the payload fields the claims observe. -/
inductive ServerEvent
  | message_ack (id : MsgId) (status : AckStatus) (timestamp : Option Nat)
      (error : Option String)
  | new_message (id : MsgId) (conversationId : ConvId) (senderId : UserId)
      (deliveredAt readAt : Option Nat) (createdAt : Nat)
  | delivery_receipt (conversationId : ConvId) (messageId : MsgId) (deliveredAt : Nat)
  | read_receipt (conversationId : ConvId) (userId : UserId) (messageId : MsgId)
      (readAt : Nat)
  | message_updated (id : MsgId) (conversationId : ConvId) (content : String)
      (editedAt : Nat)
  | message_deleted (id : MsgId) (conversationId : ConvId)
  | reaction_updated (messageId : MsgId) (conversationId : ConvId) (userId : UserId)
      (emoji : Option String)
  | presence (userId : UserId) (online : Bool) (lastSeenAt : Option Nat)
  | error_event (code : String) (msg : String)
deriving DecidableEq, Repr

/-- An observable effect of a handler, in program order: `toSocket` is
`send(socket, …)` on the originating socket, `publish` is
`redisPub.publish('conv:' + id, …)` on the fan-out bus. -/
inductive Action
  | toSocket (e : ServerEvent)
  | publish (topic : ConvId) (e : ServerEvent)
deriving DecidableEq, Repr

/-- Is this action a `delivery_receipt` publish? -/
def Action.isDeliveryReceipt : Action → Bool
  | Action.publish _ (ServerEvent.delivery_receipt _ _ _) => true
  | _ => false

/-- `SELECT id FROM conversation_members WHERE conversation_id = $1 AND user_id = $2`. -/
def findMember (st : DbState) (c : ConvId) (u : UserId) : Option Member :=
  st.members.find? (fun m => m.conversation_id == c && m.user_id == u)

/-- The `send_message` payload `{id, conversationId, content, type, replyToId}`
(attachments are not modelled; linking them touches no table the claims read). -/
structure SendPayload where
  id : MsgId
  conversationId : ConvId
  content : Option String
  type : MsgType
  replyToId : Option MsgId
deriving DecidableEq, Repr

/-- The fresh row inserted by the `send_message` upsert: every lifecycle
timestamp is NULL and `created_at` defaults to `NOW()`. -/
def freshMessage (now : Nat) (userId : UserId) (p : SendPayload) : Message :=
  { id := p.id, conversation_id := p.conversationId, sender_id := userId,
    content := p.content, type := p.type, reply_to_id := p.replyToId,
    edited_at := none, deleted_at := none, delivered_at := none,
    read_at := none, created_at := now }

/-- `INSERT INTO messages … ON CONFLICT (id) DO UPDATE SET id = EXCLUDED.id
RETURNING id, created_at`: on conflict the row is left unchanged (only
`id` is reassigned to itself) and the existing row's `created_at` is
returned; otherwise a fresh row is inserted with `created_at` defaulting
to `NOW()`. -/
def upsertMessage (msgs : List Message) (now : Nat) (userId : UserId)
    (p : SendPayload) : List Message × Nat :=
  match msgs.find? (fun m => m.id == p.id) with
  | some m0 => (msgs, m0.created_at)
  | none => (msgs ++ [freshMessage now userId p], now)

/-- The per-row effect of
`UPDATE messages SET delivered_at = $1 WHERE id = $2 AND delivered_at IS NULL`. -/
def deliverUpd (t : Nat) (id : MsgId) (m : Message) : Message :=
  if m.id == id && m.delivered_at.isNone then { m with delivered_at := some t } else m

/-- `UPDATE messages SET delivered_at = $1 WHERE id = $2 AND delivered_at IS NULL`. -/
def markDelivered (msgs : List Message) (t : Nat) (id : MsgId) : List Message :=
  msgs.map (deliverUpd t id)

/-- The `case 'send_message'` branch of the WebSocket handler: membership
check, idempotent upsert, ok-ack to the originating socket, `new_message`
publish, then (for non-channel conversations with another member online)
the guarded `delivered_at` update and a `delivery_receipt` publish. -/
def sendMessage (st : DbState) (now : Nat) (online : List UserId)
    (userId : UserId) (p : SendPayload) : DbState × List Action :=
  match findMember st p.conversationId userId with
  | none =>
      (st, [Action.toSocket (ServerEvent.message_ack p.id AckStatus.error none
              (some "Not a member of this conversation"))])
  | some _ =>
      let up := upsertMessage st.messages now userId p
      let st1 : DbState := { st with messages := up.1 }
      let ack := Action.toSocket
        (ServerEvent.message_ack p.id AckStatus.ok (some up.2) none)
      let broadcast := Action.publish p.conversationId
        (ServerEvent.new_message p.id p.conversationId userId none none up.2)
      match st1.conversations.find? (fun c => c.id == p.conversationId) with
      | some convInfo =>
          if convInfo.type ≠ ConvType.channel then
            let otherMembers := st1.members.filter
              (fun m => m.conversation_id == p.conversationId && m.user_id != userId)
            let hasOnlineMember := otherMembers.any (fun m => online.contains m.user_id)
            if hasOnlineMember then
              ({ st1 with messages := markDelivered st1.messages now p.id },
               [ack, broadcast,
                Action.publish p.conversationId
                  (ServerEvent.delivery_receipt p.conversationId p.id now)])
            else (st1, [ack, broadcast])
          else (st1, [ack, broadcast])
      | none => (st1, [ack, broadcast])

/-- The `case 'read'` branch of the WebSocket handler:
`UPDATE messages SET read_at = $1 WHERE id = $2 AND read_at IS NULL`,
then `UPDATE conversation_members SET last_read_msg_id = $1 WHERE …`,
then an unconditional `read_receipt` publish. -/
def readMessage (st : DbState) (now : Nat) (userId : UserId)
    (conversationId : ConvId) (messageId : MsgId) : DbState × List Action :=
  let messages1 := st.messages.map (fun m =>
    if m.id == messageId && m.read_at.isNone then { m with read_at := some now } else m)
  let members1 := st.members.map (fun m =>
    if m.conversation_id == conversationId && m.user_id == userId then
      { m with last_read_msg_id := some messageId } else m)
  ({ st with messages := messages1, members := members1 },
   [Action.publish conversationId
      (ServerEvent.read_receipt conversationId userId messageId now)])

/-- The `case 'edit_message'` branch of the WebSocket handler: look up
`SELECT conversation_id FROM messages WHERE id = $1 AND sender_id = $2 AND
deleted_at IS NULL`; on miss reply with a FORBIDDEN error event; on hit
run `UPDATE messages SET content = $1, edited_at = NOW() WHERE id = $2`
and publish `message_updated`. No variant check and no time-window check. -/
def editMessageWs (st : DbState) (now : Nat) (userId : UserId) (id : MsgId)
    (content : String) : DbState × List Action :=
  match st.messages.find? (fun m =>
      m.id == id && m.sender_id == userId && m.deleted_at.isNone) with
  | none =>
      (st, [Action.toSocket (ServerEvent.error_event "FORBIDDEN" "Cannot edit this message")])
  | some msg =>
      let messages1 := st.messages.map (fun m =>
        if m.id == id then { m with content := some content, edited_at := some now } else m)
      ({ st with messages := messages1 },
       [Action.publish msg.conversation_id
          (ServerEvent.message_updated id msg.conversation_id content now)])

/-- Result of an HTTP route: a status code with an error string, or success. -/
inductive HttpResult
  | ok (editedAt : Nat)
  | err (status : Nat) (msg : String)
deriving DecidableEq, Repr

/-- The `PATCH /:id` message route: 404 when the id is unknown, 403 when the
requester is not the sender, 400 when deleted, 400 when
`Date.now() - created_at > 5 * 60 * 1000`, otherwise update content and
`edited_at`, publish `message_updated`, and return the edit time.
(JS negative differences compare like truncated Nat subtraction here.) -/
def editMessageHttp (st : DbState) (now : Nat) (userId : UserId) (id : MsgId)
    (content : String) : DbState × HttpResult × List Action :=
  match st.messages.find? (fun m => m.id == id) with
  | none => (st, HttpResult.err 404 "Message not found", [])
  | some msg =>
      if msg.sender_id ≠ userId then
        (st, HttpResult.err 403 "You can only edit your own messages", [])
      else if msg.deleted_at.isSome then
        (st, HttpResult.err 400 "Cannot edit updated message", [])
      else if 5 * 60 * 1000 < now - msg.created_at then
        (st, HttpResult.err 400 "Message cannot be edited after 5 minutes", [])
      else
        let messages1 := st.messages.map (fun m =>
          if m.id == id then { m with content := some content, edited_at := some now } else m)
        ({ st with messages := messages1 }, HttpResult.ok now,
         [Action.publish msg.conversation_id
            (ServerEvent.message_updated id msg.conversation_id content now)])

/-- The `case 'react'` branch of the WebSocket handler:
`SELECT conversation_id FROM messages WHERE id = $1`; when the message is
unknown the branch is `if (!msg) break;` — nothing happens at all.
Otherwise a null emoji deletes the user's reaction, a non-null emoji
upserts on `(message_id, user_id)`, and `reaction_updated` is published. -/
def reactHandler (st : DbState) (userId : UserId) (messageId : MsgId)
    (emoji : Option String) : DbState × List Action :=
  match st.messages.find? (fun m => m.id == messageId) with
  | none => (st, [])
  | some msg =>
      match emoji with
      | none =>
          let reactions1 := st.reactions.filter (fun r =>
            !(r.message_id == messageId && r.user_id == userId))
          ({ st with reactions := reactions1 },
           [Action.publish msg.conversation_id
              (ServerEvent.reaction_updated messageId msg.conversation_id userId none)])
      | some e =>
          let reactions1 :=
            if st.reactions.any (fun r => r.message_id == messageId && r.user_id == userId)
            then st.reactions.map (fun r =>
              if r.message_id == messageId && r.user_id == userId then
                { r with emoji := e } else r)
            else st.reactions ++ [{ message_id := messageId, user_id := userId, emoji := e }]
          ({ st with reactions := reactions1 },
           [Action.publish msg.conversation_id
              (ServerEvent.reaction_updated messageId msg.conversation_id userId (some e))])

/-- The `case 'subscribe'` branch of the WebSocket handler: for every
requested conversation, check membership (`SELECT id FROM
conversation_members …`) and, when a member, add the socket to the local
topic index and to the session's `userConversations` set. No table is
written and nothing is sent or published. -/
def subscribeHandler (st : DbState) (subscribed : List ConvId) (userId : UserId)
    (conversationIds : List ConvId) : DbState × List ConvId × List Action :=
  (st,
   subscribed ++ conversationIds.filter (fun c => (findMember st c userId).isSome),
   [])

/-- The connect flow after a successful JWT verification: track the socket,
`UPDATE users SET last_seen_at = NOW() WHERE id = $1`, and publish a
`presence online` event on every conversation the user belongs to. -/
def connectFlow (st : DbState) (now : Nat) (userId : UserId) : DbState × List Action :=
  let users1 := st.users.map (fun u =>
    if u.id == userId then { u with last_seen_at := some now } else u)
  ({ st with users := users1 },
   (st.members.filter (fun m => m.user_id == userId)).map (fun m =>
     Action.publish m.conversation_id (ServerEvent.presence userId true none)))

/-! ## Helper lemmas -/

theorem deliverUpd_id (t : Nat) (id : MsgId) (m : Message) :
    (deliverUpd t id m).id = m.id := by
  unfold deliverUpd; split <;> rfl

theorem deliverUpd_created_at (t : Nat) (id : MsgId) (m : Message) :
    (deliverUpd t id m).created_at = m.created_at := by
  unfold deliverUpd; split <;> rfl

theorem deliverUpd_sender_id (t : Nat) (id : MsgId) (m : Message) :
    (deliverUpd t id m).sender_id = m.sender_id := by
  unfold deliverUpd; split <;> rfl

theorem deliverUpd_conversation_id (t : Nat) (id : MsgId) (m : Message) :
    (deliverUpd t id m).conversation_id = m.conversation_id := by
  unfold deliverUpd; split <;> rfl

theorem deliverUpd_content (t : Nat) (id : MsgId) (m : Message) :
    (deliverUpd t id m).content = m.content := by
  unfold deliverUpd; split <;> rfl

theorem map_id_of_fix {α : Type} (f : α → α) (l : List α) (h : ∀ x ∈ l, f x = x) :
    l.map f = l := by
  induction l with
  | nil => rfl
  | cons a as ih =>
      simp only [List.map_cons, List.cons.injEq]
      exact ⟨h a (List.mem_cons_self a as), ih (fun x hx => h x (List.mem_cons_of_mem a hx))⟩

/-- `find?` by id commutes with a map whose function preserves the id. -/
theorem find?_map_of_id_pres (f : Message → Message) (hf : ∀ m, (f m).id = m.id)
    (l : List Message) (i : MsgId) :
    (l.map f).find? (fun m => m.id == i) =
      Option.map f (l.find? (fun m => m.id == i)) := by
  induction l with
  | nil => rfl
  | cons m ms ih =>
      by_cases h : m.id = i
      · simp [List.find?_cons, hf, h]
      · simp only [List.map_cons, List.find?_cons]
        have h1 : ((f m).id == i) = false := by simp [hf, h]
        have h2 : (m.id == i) = false := by simp [h]
        rw [h1, h2]
        exact ih

/-- `countP` by id is invariant under a map whose function preserves the id. -/
theorem countP_map_of_id_pres (f : Message → Message) (hf : ∀ m, (f m).id = m.id)
    (l : List Message) (i : MsgId) :
    (l.map f).countP (fun m => m.id == i) = l.countP (fun m => m.id == i) := by
  rw [List.countP_map]
  apply List.countP_congr
  intro a _
  simp [Function.comp, hf]

theorem sendMessage_members (st : DbState) (now : Nat) (online : List UserId)
    (u : UserId) (p : SendPayload) :
    (sendMessage st now online u p).1.members = st.members := by
  unfold sendMessage
  split
  · rfl
  · dsimp only
    split
    · split
      · split <;> rfl
      · rfl
    · rfl

/-- Shape of a successful send: the ok-ack to the originating socket comes
first, the `new_message` publish second, both carrying the upsert's
canonical `created_at`; the stored messages are the upsert result, with
the guarded `delivered_at` update possibly applied on top. -/
theorem sendMessage_success_shape (st : DbState) (now : Nat) (online : List UserId)
    (u : UserId) (p : SendPayload)
    (hm : (findMember st p.conversationId u).isSome) :
    (∃ rest, (sendMessage st now online u p).2 =
      Action.toSocket (ServerEvent.message_ack p.id AckStatus.ok
        (some (upsertMessage st.messages now u p).2) none) ::
      Action.publish p.conversationId (ServerEvent.new_message p.id p.conversationId u
        none none (upsertMessage st.messages now u p).2) :: rest) ∧
    ((sendMessage st now online u p).1.messages = (upsertMessage st.messages now u p).1 ∨
      (sendMessage st now online u p).1.messages =
        markDelivered (upsertMessage st.messages now u p).1 now p.id) := by
  obtain ⟨mem, hmem⟩ := Option.isSome_iff_exists.mp hm
  unfold sendMessage
  rw [hmem]
  dsimp only
  split
  · split
    · split
      · exact ⟨⟨_, rfl⟩, Or.inr rfl⟩
      · exact ⟨⟨_, rfl⟩, Or.inl rfl⟩
    · exact ⟨⟨_, rfl⟩, Or.inl rfl⟩
  · exact ⟨⟨_, rfl⟩, Or.inl rfl⟩

theorem find?_append_fresh (msgs : List Message) (now : Nat) (u : UserId)
    (p : SendPayload) (hnone : msgs.find? (fun m => m.id == p.id) = none) :
    (msgs ++ [freshMessage now u p]).find? (fun m => m.id == p.id) =
      some (freshMessage now u p) := by
  rw [List.find?_append, hnone]
  simp [freshMessage]

/-- C2: two sends with the same client-chosen id leave exactly one row,
the retry does not change `created_at`, and both acks carry the first
send's `created_at`. -/
theorem send_retry_single_row_same_created_at
    (st : DbState) (now1 now2 : Nat) (online : List UserId) (u : UserId)
    (p : SendPayload)
    (hm : (findMember st p.conversationId u).isSome)
    (hnone : st.messages.find? (fun m => m.id == p.id) = none) :
    (sendMessage (sendMessage st now1 online u p).1 now2 online u p).1.messages.countP
        (fun m => m.id == p.id) = 1 ∧
    (∀ m ∈ (sendMessage (sendMessage st now1 online u p).1 now2 online u p).1.messages,
      m.id = p.id → m.created_at = now1) ∧
    (sendMessage st now1 online u p).2.head? =
      some (Action.toSocket (ServerEvent.message_ack p.id AckStatus.ok (some now1) none)) ∧
    (sendMessage (sendMessage st now1 online u p).1 now2 online u p).2.head? =
      some (Action.toSocket (ServerEvent.message_ack p.id AckStatus.ok (some now1) none)) := by
  have hup1 : upsertMessage st.messages now1 u p =
      (st.messages ++ [freshMessage now1 u p], now1) := by
    unfold upsertMessage
    rw [hnone]
  obtain ⟨⟨rest1, hr1⟩, hmsgs1⟩ := sendMessage_success_shape st now1 online u p hm
  rw [hup1] at hr1 hmsgs1
  -- the first send leaves exactly the fresh row under id p.id
  have hfind1 : ∃ m1, (sendMessage st now1 online u p).1.messages.find?
      (fun m => m.id == p.id) = some m1 ∧ m1.created_at = now1 := by
    rcases hmsgs1 with h | h
    · exact ⟨freshMessage now1 u p, by rw [h]; exact find?_append_fresh _ _ _ _ hnone, rfl⟩
    · refine ⟨deliverUpd now1 p.id (freshMessage now1 u p), ?_, ?_⟩
      · rw [h]
        unfold markDelivered
        rw [find?_map_of_id_pres _ (deliverUpd_id now1 p.id) _ _,
          find?_append_fresh _ _ _ _ hnone]
        rfl
      · rw [deliverUpd_created_at]
        rfl
  have hall1 : ∀ m ∈ (sendMessage st now1 online u p).1.messages,
      m.id = p.id → m.created_at = now1 := by
    have hbase : ∀ m ∈ st.messages ++ [freshMessage now1 u p],
        m.id = p.id → m.created_at = now1 := by
      intro m hmem hid
      rcases List.mem_append.mp hmem with h | h
      · exact absurd (by simp [hid]) (List.find?_eq_none.mp hnone m h)
      · rw [List.mem_singleton.mp h]
        rfl
    rcases hmsgs1 with h | h
    · rw [h]; exact hbase
    · rw [h]
      intro m hmem hid
      obtain ⟨m0, hm0, rfl⟩ := List.mem_map.mp hmem
      rw [deliverUpd_created_at]
      exact hbase m0 hm0 (by rw [← deliverUpd_id now1 p.id m0]; exact hid)
  have hcount1 : (sendMessage st now1 online u p).1.messages.countP
      (fun m => m.id == p.id) = 1 := by
    have hzero : st.messages.countP (fun m => m.id == p.id) = 0 :=
      List.countP_eq_zero.mpr (fun a ha => List.find?_eq_none.mp hnone a ha)
    have hbase : (st.messages ++ [freshMessage now1 u p]).countP
        (fun m => m.id == p.id) = 1 := by
      rw [List.countP_append, hzero]
      simp [freshMessage, List.countP_cons]
    rcases hmsgs1 with h | h
    · rw [h]; exact hbase
    · rw [h]
      unfold markDelivered
      rw [countP_map_of_id_pres _ (deliverUpd_id now1 p.id)]
      exact hbase
  obtain ⟨m1, hfind1m, hca1⟩ := hfind1
  have hm2 : (findMember (sendMessage st now1 online u p).1 p.conversationId u).isSome := by
    unfold findMember
    rw [sendMessage_members]
    exact hm
  have hup2 : upsertMessage (sendMessage st now1 online u p).1.messages now2 u p =
      ((sendMessage st now1 online u p).1.messages, now1) := by
    unfold upsertMessage
    rw [hfind1m]
    dsimp only
    rw [hca1]
  obtain ⟨⟨rest2, hr2⟩, hmsgs2⟩ :=
    sendMessage_success_shape (sendMessage st now1 online u p).1 now2 online u p hm2
  rw [hup2] at hr2 hmsgs2
  refine ⟨?_, ?_, ?_, ?_⟩
  · rcases hmsgs2 with h | h
    · rw [h]; exact hcount1
    · rw [h]
      unfold markDelivered
      rw [countP_map_of_id_pres _ (deliverUpd_id now2 p.id)]
      exact hcount1
  · rcases hmsgs2 with h | h
    · rw [h]; exact hall1
    · rw [h]
      intro m hmem hid
      obtain ⟨m0, hm0, rfl⟩ := List.mem_map.mp hmem
      rw [deliverUpd_created_at]
      exact hall1 m0 hm0 (by rw [← deliverUpd_id now2 p.id m0]; exact hid)
  · rw [hr1]
    rfl
  · rw [hr2]
    rfl

/-- A two-user direct conversation with an empty message log. -/
def dmFixture : DbState :=
  { users := [⟨1, none⟩, ⟨2, none⟩],
    conversations := [⟨1, ConvType.dm⟩],
    members := [⟨1, 1, Role.admin, none⟩, ⟨1, 2, Role.member, none⟩],
    messages := [],
    reactions := [] }

/-- A text send payload with client-chosen id 5 into conversation 1. -/
def helloPayload : SendPayload := ⟨5, 1, none, MsgType.text, none⟩

/-- C2 witness: the retry law applied to a concrete two-user DM send,
retried at a later time. -/
theorem send_retry_single_row_same_created_at_witness :
    (findMember dmFixture 1 1).isSome = true ∧
    dmFixture.messages.find? (fun m => m.id == 5) = none ∧
    ((sendMessage (sendMessage dmFixture 10 [2] 1 helloPayload).1 20 [2] 1
        helloPayload).1.messages.countP (fun m => m.id == 5) = 1 ∧
      (∀ m ∈ (sendMessage (sendMessage dmFixture 10 [2] 1 helloPayload).1 20 [2] 1
          helloPayload).1.messages, m.id = 5 → m.created_at = 10) ∧
      (sendMessage dmFixture 10 [2] 1 helloPayload).2.head? =
        some (Action.toSocket (ServerEvent.message_ack 5 AckStatus.ok (some 10) none)) ∧
      (sendMessage (sendMessage dmFixture 10 [2] 1 helloPayload).1 20 [2] 1
          helloPayload).2.head? =
        some (Action.toSocket (ServerEvent.message_ack 5 AckStatus.ok (some 10) none))) :=
  ⟨by decide, by decide,
   send_retry_single_row_same_created_at dmFixture 10 20 [2] 1 helloPayload
     (by decide) (by decide)⟩

/-- C9: for every successful send, the `message_ack` written to the
originating socket strictly precedes the `new_message` publish on the
fan-out bus in the handler's action order. -/
theorem ack_written_before_new_message_publish
    (st : DbState) (now : Nat) (online : List UserId) (u : UserId) (p : SendPayload)
    (hm : (findMember st p.conversationId u).isSome) :
    ∃ cAt rest, (sendMessage st now online u p).2 =
      Action.toSocket (ServerEvent.message_ack p.id AckStatus.ok (some cAt) none) ::
      Action.publish p.conversationId
        (ServerEvent.new_message p.id p.conversationId u none none cAt) :: rest := by
  obtain ⟨rest, h⟩ := (sendMessage_success_shape st now online u p hm).1
  exact ⟨_, rest, h⟩

/-- C9 witness: the ack-before-publish shape at a concrete DM send. -/
theorem ack_written_before_new_message_publish_witness :
    (findMember dmFixture 1 1).isSome = true ∧
    (∃ cAt rest, (sendMessage dmFixture 10 [2] 1 ⟨6, 1, none, MsgType.text, none⟩).2 =
      Action.toSocket (ServerEvent.message_ack 6 AckStatus.ok (some cAt) none) ::
      Action.publish 1 (ServerEvent.new_message 6 1 1 none none cAt) :: rest) :=
  ⟨by decide,
   ack_written_before_new_message_publish dmFixture 10 [2] 1
     ⟨6, 1, none, MsgType.text, none⟩ (by decide)⟩

/-- C10: a react event whose messageId matches no stored message changes no
state, publishes no `reaction_updated`, and sends no error back. -/
theorem react_unknown_message_silently_dropped
    (st : DbState) (u : UserId) (mid : MsgId) (emoji : Option String)
    (h : st.messages.find? (fun m => m.id == mid) = none) :
    reactHandler st u mid emoji = (st, []) := by
  unfold reactHandler
  rw [h]

/-- C10 witness: a react against an unknown message id in a concrete state. -/
theorem react_unknown_message_silently_dropped_witness :
    dmFixture.messages.find? (fun m => m.id == 99) = none ∧
    reactHandler dmFixture 1 99 none = (dmFixture, []) :=
  ⟨by decide, react_unknown_message_silently_dropped dmFixture 1 99 none (by decide)⟩

/-- C1 (code-bug evidence): the `read` handler's update guard is only
`read_at IS NULL`; reading a message whose `delivered_at` is NULL sets
`read_at` and leaves `delivered_at` NULL — there is no
`delivered_at IS NOT NULL` guard and no `delivered_at` backfill, so the
two fields do not end up non-null and equal. -/
theorem read_of_undelivered_sets_read_at_only :
    ((readMessage
        ⟨[⟨1, none⟩, ⟨2, none⟩], [⟨1, ConvType.dm⟩],
         [⟨1, 1, Role.admin, none⟩, ⟨1, 2, Role.member, none⟩],
         [⟨10, 1, 1, none, MsgType.text, none, none, none, none, none, 40⟩], []⟩
        100 2 1 10).1.messages.find? (fun m => m.id == 10)) =
      some ⟨10, 1, 1, none, MsgType.text, none, none, none, none, some 100, 40⟩ := by
  decide

/-- C3 (code-bug evidence): from a state whose rows all satisfy
read ⇒ delivered, one `read` event reaches a state with a row whose
`read_at` is set while `delivered_at` is NULL, and that row still passes
every CHECK constraint the schema declares on `messages` (the only one
is the `type` enumeration), so the storage boundary does not enforce the
lifecycle invariant. -/
theorem read_reaches_state_violating_read_implies_delivered :
    (∀ m ∈ ([⟨11, 2, 1, none, MsgType.text, none, none, none, none, none, 7⟩] :
        List Message), m.read_at.isSome → m.delivered_at.isSome) ∧
    (∃ m ∈ (readMessage
        ⟨[⟨1, none⟩, ⟨3, none⟩], [⟨2, ConvType.group⟩],
         [⟨2, 1, Role.admin, none⟩, ⟨2, 3, Role.member, none⟩],
         [⟨11, 2, 1, none, MsgType.text, none, none, none, none, none, 7⟩], []⟩
        200 3 2 11).1.messages,
      m.read_at.isSome ∧ m.delivered_at = none ∧ messagesRowCheck m = true) := by
  decide

/-- A channel with user 1 as admin and user 2 as a plain member. -/
def channelFixture : DbState :=
  { users := [⟨1, none⟩, ⟨2, none⟩],
    conversations := [⟨1, ConvType.channel⟩],
    members := [⟨1, 1, Role.admin, none⟩, ⟨1, 2, Role.member, none⟩],
    messages := [],
    reactions := [] }

/-- C4 counterexample: a channel send from the role-`member` user 2 is
acked ok, persisted, and broadcast as `new_message` — not rejected with a
FORBIDDEN error ack. -/
theorem channel_member_send_not_rejected :
    (sendMessage channelFixture 10 [1] 2 ⟨5, 1, none, MsgType.text, none⟩).2 =
      [Action.toSocket (ServerEvent.message_ack 5 AckStatus.ok (some 10) none),
       Action.publish 1 (ServerEvent.new_message 5 1 2 none none 10)] ∧
    (sendMessage channelFixture 10 [1] 2
        ⟨5, 1, none, MsgType.text, none⟩).1.messages.countP (fun m => m.id == 5) = 1 := by
  decide

/-- C4 (amended): on a channel the server checks only membership, never the
role: any member's send runs the upsert, is acked ok, and is broadcast as
`new_message` (and, the conversation being a channel, no delivery receipt
follows); the admin-only rule lives solely in the web client's UI. -/
theorem channel_send_checks_membership_not_role
    (st : DbState) (now : Nat) (online : List UserId) (u : UserId) (p : SendPayload)
    (mem : Member) (hmem : findMember st p.conversationId u = some mem)
    (hconv : st.conversations.find? (fun c => c.id == p.conversationId) =
      some ⟨p.conversationId, ConvType.channel⟩) :
    (sendMessage st now online u p).2 =
      [Action.toSocket (ServerEvent.message_ack p.id AckStatus.ok
          (some (upsertMessage st.messages now u p).2) none),
       Action.publish p.conversationId (ServerEvent.new_message p.id p.conversationId u
          none none (upsertMessage st.messages now u p).2)] ∧
    (sendMessage st now online u p).1.messages = (upsertMessage st.messages now u p).1 := by
  unfold sendMessage
  rw [hmem]
  dsimp only
  rw [hconv]
  simp

/-- C4 witness: the amended rule applied to the concrete channel fixture
with the non-admin sender. -/
theorem channel_send_checks_membership_not_role_witness :
    findMember channelFixture 1 2 = some ⟨1, 2, Role.member, none⟩ ∧
    channelFixture.conversations.find? (fun c => c.id == 1) =
      some ⟨1, ConvType.channel⟩ ∧
    ((sendMessage channelFixture 10 [1] 2 ⟨5, 1, none, MsgType.text, none⟩).2 =
      [Action.toSocket (ServerEvent.message_ack 5 AckStatus.ok
          (some (upsertMessage channelFixture.messages 10 2
            ⟨5, 1, none, MsgType.text, none⟩).2) none),
       Action.publish 1 (ServerEvent.new_message 5 1 2 none none
          (upsertMessage channelFixture.messages 10 2
            ⟨5, 1, none, MsgType.text, none⟩).2)] ∧
    (sendMessage channelFixture 10 [1] 2 ⟨5, 1, none, MsgType.text, none⟩).1.messages =
      (upsertMessage channelFixture.messages 10 2 ⟨5, 1, none, MsgType.text, none⟩).1) :=
  ⟨by decide, by decide,
   channel_send_checks_membership_not_role channelFixture 10 [1] 2
     ⟨5, 1, none, MsgType.text, none⟩ ⟨1, 2, Role.member, none⟩ (by decide) (by decide)⟩

/-- C5 counterexample: a repeated read of an already-read message (whose
`last_read_msg_id` already points at it) still publishes another
`read_receipt` — the broadcast is unconditional. -/
theorem repeated_read_publishes_read_receipt_again :
    (readMessage
        ⟨[⟨1, none⟩, ⟨2, none⟩], [⟨1, ConvType.dm⟩],
         [⟨1, 1, Role.admin, none⟩, ⟨1, 2, Role.member, some 5⟩],
         [⟨5, 1, 1, none, MsgType.text, none, none, none, some 40, some 50, 10⟩], []⟩
        100 2 1 5).2 =
      [Action.publish 1 (ServerEvent.read_receipt 1 2 5 100)] := by
  decide

/-- C5 (amended): a repeated read changes no stored state — the
`read_at IS NULL` guard skips the message and the `last_read_msg_id`
write re-stores the same value — but the handler still publishes a
`read_receipt` (timestamped with the current clock) on every read event. -/
theorem repeated_read_state_fixed_but_rebroadcasts
    (st : DbState) (now : Nat) (u : UserId) (c : ConvId) (mid : MsgId)
    (hread : ∀ m ∈ st.messages, m.id = mid → m.read_at.isSome)
    (hlast : ∀ mem ∈ st.members, mem.conversation_id = c → mem.user_id = u →
      mem.last_read_msg_id = some mid) :
    readMessage st now u c mid =
      (st, [Action.publish c (ServerEvent.read_receipt c u mid now)]) := by
  unfold readMessage
  dsimp only
  rw [map_id_of_fix _ _ ?hmem, map_id_of_fix _ _ ?hmsg]
  case hmsg =>
    intro m hmem2
    by_cases hid : m.id = mid
    · have hs : m.read_at.isSome := hread m hmem2 hid
      have hcond : (m.id == mid && m.read_at.isNone) = false := by
        rcases Option.isSome_iff_exists.mp hs with ⟨v, hv⟩
        simp [hv]
      rw [hcond]
      rfl
    · have hcond : (m.id == mid && m.read_at.isNone) = false := by
        simp [hid]
      rw [hcond]
      rfl
  case hmem =>
    intro mem hmem2
    by_cases hc : mem.conversation_id = c ∧ mem.user_id = u
    · have hl := hlast mem hmem2 hc.1 hc.2
      have hcond : (mem.conversation_id == c && mem.user_id == u) = true := by
        simp [hc.1, hc.2]
      rw [hcond]
      cases mem
      simp_all
    · have hcond : (mem.conversation_id == c && mem.user_id == u) = false := by
        rcases Decidable.not_and_iff_or_not.mp hc with h | h <;> simp [h]
      rw [hcond]
      rfl

/-- C5 witness: the amended rule at a concrete already-read message. -/
theorem repeated_read_state_fixed_but_rebroadcasts_witness :
    (∀ m ∈ (⟨[⟨1, none⟩, ⟨2, none⟩], [⟨1, ConvType.dm⟩],
         [⟨1, 1, Role.admin, none⟩, ⟨1, 2, Role.member, some 6⟩],
         [⟨6, 1, 1, none, MsgType.text, none, none, none, some 41, some 51, 11⟩], []⟩ :
         DbState).messages, m.id = 6 → m.read_at.isSome) ∧
    (∀ mem ∈ (⟨[⟨1, none⟩, ⟨2, none⟩], [⟨1, ConvType.dm⟩],
         [⟨1, 1, Role.admin, none⟩, ⟨1, 2, Role.member, some 6⟩],
         [⟨6, 1, 1, none, MsgType.text, none, none, none, some 41, some 51, 11⟩], []⟩ :
         DbState).members, mem.conversation_id = 1 → mem.user_id = 2 →
        mem.last_read_msg_id = some 6) ∧
    readMessage
        ⟨[⟨1, none⟩, ⟨2, none⟩], [⟨1, ConvType.dm⟩],
         [⟨1, 1, Role.admin, none⟩, ⟨1, 2, Role.member, some 6⟩],
         [⟨6, 1, 1, none, MsgType.text, none, none, none, some 41, some 51, 11⟩], []⟩
        101 2 1 6 =
      (⟨[⟨1, none⟩, ⟨2, none⟩], [⟨1, ConvType.dm⟩],
         [⟨1, 1, Role.admin, none⟩, ⟨1, 2, Role.member, some 6⟩],
         [⟨6, 1, 1, none, MsgType.text, none, none, none, some 41, some 51, 11⟩], []⟩,
       [Action.publish 1 (ServerEvent.read_receipt 1 2 6 101)]) :=
  ⟨by decide, by decide,
   repeated_read_state_fixed_but_rebroadcasts _ 101 2 1 6 (by decide) (by decide)⟩

/-- A DM whose single message is an `image` sent by user 1 at time 0. -/
def imageMsgFixture : DbState :=
  { users := [⟨1, none⟩, ⟨2, none⟩],
    conversations := [⟨1, ConvType.dm⟩],
    members := [⟨1, 1, Role.admin, none⟩, ⟨1, 2, Role.member, none⟩],
    messages := [⟨5, 1, 1, none, MsgType.image, none, none, none, none, none, 0⟩],
    reactions := [] }

/-- C6 counterexample: ten minutes after creation — far past the 5-minute
window — the sender edits an `image` message over the WebSocket path; the
edit succeeds and is broadcast instead of being rejected with CONFLICT. -/
theorem late_nontext_ws_edit_succeeds :
    (editMessageWs imageMsgFixture 600000 1 5 "x").1.messages =
      [⟨5, 1, 1, some "x", MsgType.image, none, some 600000, none, none, none, 0⟩] ∧
    (editMessageWs imageMsgFixture 600000 1 5 "x").2 =
      [Action.publish 1 (ServerEvent.message_updated 5 1 "x" 600000)] := by
  decide

/-- C6 (amended): the WebSocket edit path checks only that the requester is
the sender and the message is not deleted — any variant, any age succeeds
and broadcasts `message_updated`; the HTTP PATCH path additionally
rejects an edit older than five minutes with a plain 400 error (not a
CONFLICT code); neither path restricts edits to `text` messages. -/
theorem edit_checks_sender_and_undeleted_only
    (st : DbState) (now : Nat) (u : UserId) (id : MsgId) (c : String) (msg : Message)
    (hws : st.messages.find? (fun m =>
      m.id == id && m.sender_id == u && m.deleted_at.isNone) = some msg)
    (hhttp : st.messages.find? (fun m => m.id == id) = some msg) :
    (editMessageWs st now u id c).2 =
      [Action.publish msg.conversation_id
        (ServerEvent.message_updated id msg.conversation_id c now)] ∧
    (editMessageWs st now u id c).1.messages.find? (fun m => m.id == id) =
      some { msg with content := some c, edited_at := some now } ∧
    (5 * 60 * 1000 < now - msg.created_at →
      editMessageHttp st now u id c =
        (st, HttpResult.err 400 "Message cannot be edited after 5 minutes", [])) := by
  have hpred := List.find?_some hws
  simp only [Bool.and_eq_true, beq_iff_eq] at hpred
  have hid := hpred.1.1
  have hsender := hpred.1.2
  have hdel := hpred.2
  refine ⟨?_, ?_, ?_⟩
  · unfold editMessageWs
    rw [hws]
  · unfold editMessageWs
    rw [hws]
    dsimp only
    rw [find?_map_of_id_pres _ ?hf _ _, hhttp]
    case hf =>
      intro m
      dsimp only
      split <;> rfl
    simp [hid]
  · intro h5
    unfold editMessageHttp
    rw [hhttp]
    dsimp only
    rw [if_neg (by simp [hsender]),
      if_neg (by simp [Option.isNone_iff_eq_none.mp hdel]), if_pos h5]

/-- C6 witness: the amended rule at the concrete image-message fixture,
ten minutes after creation. -/
theorem edit_checks_sender_and_undeleted_only_witness :
    imageMsgFixture.messages.find? (fun m =>
      m.id == 5 && m.sender_id == 1 && m.deleted_at.isNone) =
      some ⟨5, 1, 1, none, MsgType.image, none, none, none, none, none, 0⟩ ∧
    imageMsgFixture.messages.find? (fun m => m.id == 5) =
      some ⟨5, 1, 1, none, MsgType.image, none, none, none, none, none, 0⟩ ∧
    ((editMessageWs imageMsgFixture 600000 1 5 "y").2 =
      [Action.publish 1 (ServerEvent.message_updated 5 1 "y" 600000)] ∧
     (editMessageWs imageMsgFixture 600000 1 5 "y").1.messages.find?
        (fun m => m.id == 5) =
      some ⟨5, 1, 1, some "y", MsgType.image, none, some 600000, none, none, none, 0⟩ ∧
     (5 * 60 * 1000 < 600000 - 0 →
      editMessageHttp imageMsgFixture 600000 1 5 "y" =
        (imageMsgFixture, HttpResult.err 400 "Message cannot be edited after 5 minutes",
         []))) :=
  ⟨by decide, by decide,
   edit_checks_sender_and_undeleted_only imageMsgFixture 600000 1 5 "y"
     ⟨5, 1, 1, none, MsgType.image, none, none, none, none, none, 0⟩
     (by decide) (by decide)⟩

/-- Two DMs: message 7 lives in conversation 1 and was sent by user 1;
user 2 is a member of both conversations. -/
def conflictFixture : DbState :=
  { users := [⟨1, none⟩, ⟨2, none⟩],
    conversations := [⟨1, ConvType.dm⟩, ⟨2, ConvType.dm⟩],
    members := [⟨1, 1, Role.admin, none⟩, ⟨1, 2, Role.member, none⟩,
                ⟨2, 2, Role.admin, none⟩],
    messages := [⟨7, 1, 1, none, MsgType.text, none, none, none, none, none, 3⟩],
    reactions := [] }

/-- C7 counterexample: user 2 replays id 7 into a different conversation as
a different sender; the server acks ok with the stored row's `created_at`
and publishes a `new_message` — the send is not rejected. -/
theorem conflicting_send_not_rejected :
    (sendMessage conflictFixture 50 [] 2 ⟨7, 2, none, MsgType.text, none⟩).2 =
      [Action.toSocket (ServerEvent.message_ack 7 AckStatus.ok (some 3) none),
       Action.publish 2 (ServerEvent.new_message 7 2 2 none none 3)] := by
  decide

/-- C7 (amended): a send whose id collides with an existing row having a
different sender or conversation is accepted anyway: the ok ack and the
`new_message` publish carry the stored row's `created_at`, while the
stored row keeps its original sender, conversation, content and
`created_at` (only the guarded `delivered_at` update may touch it). -/
theorem conflicting_send_accepted_row_unchanged
    (st : DbState) (now : Nat) (online : List UserId) (u : UserId) (p : SendPayload)
    (m0 : Message)
    (hm : (findMember st p.conversationId u).isSome)
    (hfind : st.messages.find? (fun m => m.id == p.id) = some m0)
    (_hdiff : m0.sender_id ≠ u ∨ m0.conversation_id ≠ p.conversationId) :
    (∃ rest, (sendMessage st now online u p).2 =
      Action.toSocket (ServerEvent.message_ack p.id AckStatus.ok
        (some m0.created_at) none) ::
      Action.publish p.conversationId
        (ServerEvent.new_message p.id p.conversationId u none none m0.created_at) ::
      rest) ∧
    (∃ m1, (sendMessage st now online u p).1.messages.find? (fun m => m.id == p.id) =
        some m1 ∧ m1.sender_id = m0.sender_id ∧
        m1.conversation_id = m0.conversation_id ∧
        m1.content = m0.content ∧ m1.created_at = m0.created_at) := by
  have hup : upsertMessage st.messages now u p = (st.messages, m0.created_at) := by
    unfold upsertMessage
    rw [hfind]
  obtain ⟨⟨rest, hr⟩, hmsgs⟩ := sendMessage_success_shape st now online u p hm
  rw [hup] at hr hmsgs
  refine ⟨⟨rest, hr⟩, ?_⟩
  rcases hmsgs with h | h
  · exact ⟨m0, by rw [h]; exact hfind, rfl, rfl, rfl, rfl⟩
  · refine ⟨deliverUpd now p.id m0, ?_, ?_, ?_, ?_, ?_⟩
    · rw [h]
      unfold markDelivered
      rw [find?_map_of_id_pres _ (deliverUpd_id now p.id) _ _, hfind]
      rfl
    · rw [deliverUpd_sender_id]
    · rw [deliverUpd_conversation_id]
    · rw [deliverUpd_content]
    · rw [deliverUpd_created_at]

/-- C7 witness: the amended rule at the concrete replay of id 7 into
conversation 2 by user 2. -/
theorem conflicting_send_accepted_row_unchanged_witness :
    (findMember conflictFixture 2 2).isSome = true ∧
    conflictFixture.messages.find? (fun m => m.id == 7) =
      some ⟨7, 1, 1, none, MsgType.text, none, none, none, none, none, 3⟩ ∧
    ((1 : UserId) ≠ 2 ∨ (1 : ConvId) ≠ 2) ∧
    ((∃ rest, (sendMessage conflictFixture 50 [] 2 ⟨7, 2, none, MsgType.text, none⟩).2 =
      Action.toSocket (ServerEvent.message_ack 7 AckStatus.ok (some 3) none) ::
      Action.publish 2 (ServerEvent.new_message 7 2 2 none none 3) :: rest) ∧
     (∃ m1, (sendMessage conflictFixture 50 [] 2
          ⟨7, 2, none, MsgType.text, none⟩).1.messages.find? (fun m => m.id == 7) =
        some m1 ∧ m1.sender_id = 1 ∧ m1.conversation_id = 1 ∧
        m1.content = none ∧ m1.created_at = 3)) :=
  ⟨by decide, by decide, by decide,
   conflicting_send_accepted_row_unchanged conflictFixture 50 [] 2
     ⟨7, 2, none, MsgType.text, none⟩
     ⟨7, 1, 1, none, MsgType.text, none, none, none, none, none, 3⟩
     (by decide) (by decide) (by decide)⟩

/-- A DM where user 1 has sent message 3, still undelivered, and user 2 —
its recipient — is about to reconnect. -/
def reconnectFixture : DbState :=
  { users := [⟨1, none⟩, ⟨2, none⟩],
    conversations := [⟨1, ConvType.dm⟩],
    members := [⟨1, 1, Role.admin, none⟩, ⟨1, 2, Role.member, none⟩],
    messages := [⟨3, 1, 1, none, MsgType.text, none, none, none, none, none, 9⟩],
    reactions := [] }

/-- C8 counterexample: the recipient reconnects and subscribes while
message 3 is undelivered; neither the connect flow nor the subscribe case
sets `delivered_at` or publishes a `delivery_receipt`. -/
theorem reconnect_performs_no_delivery_reconciliation :
    subscribeHandler reconnectFixture [] 2 [1] = (reconnectFixture, [1], []) ∧
    (connectFlow reconnectFixture 100 2).1.messages =
      [⟨3, 1, 1, none, MsgType.text, none, none, none, none, none, 9⟩] ∧
    (connectFlow reconnectFixture 100 2).2 =
      [Action.publish 1 (ServerEvent.presence 2 true none)] := by
  decide

/-- C8 (amended): reconnecting performs no delivery reconciliation at all:
the subscribe case leaves the store untouched and emits nothing, and the
connect flow only bumps `last_seen_at` and publishes presence events —
never a `delivery_receipt`. `delivered_at` is written solely in the
`send_message` path. -/
theorem subscribe_connect_never_deliver (st : DbState) (subs : List ConvId)
    (u : UserId) (cs : List ConvId) (now : Nat) :
    (subscribeHandler st subs u cs).1 = st ∧
    (subscribeHandler st subs u cs).2.2 = [] ∧
    (connectFlow st now u).1.messages = st.messages ∧
    (connectFlow st now u).2.all (fun a => !a.isDeliveryReceipt) = true := by
  refine ⟨rfl, rfl, rfl, ?_⟩
  rw [List.all_eq_true]
  intro a ha
  unfold connectFlow at ha
  dsimp only at ha
  obtain ⟨m, hm, rfl⟩ := List.mem_map.mp ha
  rfl

end Messaging
